import Mathlib

/-!
Verification of the filter-and-aggregate core of `policy_dashboard.py`
(ysds-dashboard): a Streamlit dashboard over a table of legislative bill
records.  We shallowly embed the pandas-based filtering logic
(lines 69-85), the summary metrics (lines 93-102), and the mechanism
frequency computation (lines 156-164), together with the label helper
`format_mechanism_label` (lines 13-15), and prove the specified
algebraic and functional properties about them.

Cell values model the contents of a pandas DataFrame cell as loaded from
the CSV: strings, integers (0/1 encodings of booleans), booleans, and
null (NaN).  A table is a column-name list plus a list of rows; a row is
an association list from column names to cell values (a missing key
reads as null, which only well-typed inputs never rely on for the
required `state` / `paradigm` columns).
-/

inductive CellVal where
  | vNull : CellVal
  | vStr : String → CellVal
  | vInt : Int → CellVal
  | vBool : Bool → CellVal
deriving DecidableEq, Repr

abbrev Row := List (String × CellVal)

structure Table where
  cols : List String
  rows : List Row
deriving DecidableEq, Repr

/-- Reading a cell of a row by column name (pandas `row[col]`). -/
def getCell (r : Row) (c : String) : CellVal :=
  (List.lookup c r).getD CellVal.vNull

/-- Python equality test `value == True` as used in line 85
(`filtered_df[filtered_df[mech] == True]`): `True == True` holds, and for
ints `1 == True` holds while every other int (and `0`) fails; strings and
NaN never equal `True`. -/
def cellEqTrue : CellVal → Bool
  | CellVal.vBool b => b
  | CellVal.vInt n => n == 1
  | _ => false

/-- pandas `Series.isin(list-of-strings)` on one cell: a string cell is
kept when it is a member of the list; NaN and non-string cells are not
members of a list of strings. -/
def cellInStrs (v : CellVal) (l : List String) : Bool :=
  match v with
  | CellVal.vStr s => l.contains s
  | _ => false

/-- The fixed mechanism registry, lines 49-59 of the source. -/
def mechanism_cols : List String :=
  ["age_verification", "parental_consent", "data_collection_limits",
   "algorithmic_restrictions", "duty_of_care", "risk_assessment_required",
   "default_privacy_settings", "school_based", "targets_all_platforms"]

/-- Python `str.title()` on the character list: an alphabetic character is
uppercased when the previous character is not alphabetic (not cased) and
lowercased otherwise; non-alphabetic characters pass through and reset
the word boundary. -/
def pyTitleAux : Bool → List Char → List Char
  | _, [] => []
  | prevCased, c :: cs =>
    if c.isAlpha then
      (if prevCased then c.toLower else c.toUpper) :: pyTitleAux true cs
    else
      c :: pyTitleAux false cs

/-- The label helper `format_mechanism_label` (lines 13-15):
`mech_key.replace('_', ' ').title()`.  Replacing a one-character pattern
with a one-character replacement is a character-wise map. -/
def format_mechanism_label (mech_key : String) : String :=
  String.mk (pyTitleAux false
    (mech_key.data.map (fun c => if c = '_' then ' ' else c)))

/-- State filter, lines 74-75: skipped when the selection is empty
(Python truthiness of the list), otherwise
`filtered_df[filtered_df['state'].isin(selected_states)]`. -/
def stateFilter (J : List String) (t : Table) : Table :=
  if J.isEmpty then t
  else { t with rows := t.rows.filter (fun r => cellInStrs (getCell r "state") J) }

/-- Paradigm filter, lines 78-79. -/
def paradigmFilter (P : List String) (t : Table) : Table :=
  if P.isEmpty then t
  else { t with rows := t.rows.filter (fun r => cellInStrs (getCell r "paradigm") P) }

/-- One pass of the mechanism loop body, lines 82-85: for a mechanism key
the rows are filtered by `== True` when the mechanism is checked
(`mech ∈ M`) and present among the table's columns. -/
def mechStep (cols M : List String) (rs : List Row) (mech : String) : List Row :=
  if M.contains mech && cols.contains mech then
    rs.filter (fun r => cellEqTrue (getCell r mech))
  else rs

/-- Mechanism filter, lines 82-85: the loop over `mech_filters.items()`
iterates the registry order (`mechanism_cols`); a key is in the dict only
when it is a column of the loaded table, and its value is the checkbox
state, so the checked set `M` acts through `mech ∈ M ∧ mech ∈ cols`. -/
def mechFilter (M : List String) (t : Table) : Table :=
  { t with rows := mechanism_cols.foldl (mechStep t.cols M) t.rows }

/-- The complete filter pipeline `filtered_df` (lines 71-85): state
filter, then paradigm filter, then the conjunctive mechanism loop. -/
def filtered_df (df : Table) (J P M : List String) : Table :=
  mechFilter M (paradigmFilter P (stateFilter J df))

/-- Non-null string values of the `state` column (pandas drops NaN in
`nunique`). -/
def stateVals (rows : List Row) : List String :=
  rows.filterMap (fun r =>
    match getCell r "state" with
    | CellVal.vStr s => some s
    | _ => none)

/-- Non-null string values of the `paradigm` column (pandas `mode`
drops NaN). -/
def paradigmVals (rows : List Row) : List String :=
  rows.filterMap (fun r =>
    match getCell r "paradigm" with
    | CellVal.vStr s => some s
    | _ => none)

/-- The largest per-value multiplicity among the values of `l`. -/
def maxCount (l : List String) : Nat :=
  ((l.dedup.map (fun v => l.count v)).max?).getD 0

/-- The distinct values attaining the maximal multiplicity. -/
def modeSet (l : List String) : List String :=
  l.dedup.filter (fun v => l.count v == maxCount l)

/-- pandas `Series.mode()`: the most frequent non-null values, returned
in ascending sorted order. -/
def pandasMode (l : List String) : List String :=
  List.insertionSort (· ≤ ·) (modeSet l)

/-- The metric `top_paradigm_val` (lines 97-101): `"N/A"` for an empty filtered
table; otherwise `mode()[0]`, or `"None"` when the mode series is empty
(every paradigm value null). -/
def top_paradigm_val (t : Table) : String :=
  if t.rows.isEmpty then "N/A"
  else
    match pandasMode (paradigmVals t.rows) with
    | [] => "None"
    | v :: _ => v

/-- The three top metrics of lines 93-102. -/
structure Summary where
  bill_count : Nat
  jurisdiction_count : Nat
  dominant_paradigm : String
deriving DecidableEq, Repr

/-- The aggregator `summarize`: `len(filtered_df)` (line 93),
`filtered_df['state'].nunique()` (line 94, distinct non-null values), and
`top_paradigm_val` (lines 97-102). -/
def summarize (t : Table) : Summary :=
  { bill_count := t.rows.length
  , jurisdiction_count := (stateVals t.rows).dedup.length
  , dominant_paradigm := top_paradigm_val t }

/-- Lines 33 and 69 gate everything on `not df.empty`; an unloaded or
missing source file yields an empty frame (lines 24-26) and the metrics
block never runs (line 203-204 shows a warning instead).  `none` is that
"no data available" state; `some` carries the computed summary. -/
def dashboardSummary (df : Table) (J P M : List String) : Option Summary :=
  if df.rows.isEmpty then none
  else some (summarize (filtered_df df J P M))

/-- Registry mechanisms present as columns of the table
(`[m for m in mechanism_cols if m in filtered_df.columns]`, line 158). -/
def activeMechs (t : Table) : List String :=
  mechanism_cols.filter (fun m => t.cols.contains m)

/-- pandas-style column sum used on boolean/0-1 columns (line 161):
booleans count 1 when true, ints add their value, NaN is skipped. -/
def colSum (rows : List Row) (c : String) : Int :=
  rows.foldl (fun acc r =>
    acc + (match getCell r c with
           | CellVal.vBool b => if b then 1 else 0
           | CellVal.vInt n => n
           | _ => 0)) 0

/-- The frequency mapping `mech_counts` (lines 156-164): only computed for a non-empty filtered
table (line 156) with at least one valid mechanism column (line 160);
otherwise the dashboard shows an informational message and produces no
frequency mapping (`none`). -/
def mech_counts (t : Table) : Option (List (String × Int)) :=
  if t.rows.isEmpty then none
  else if (activeMechs t).isEmpty then none
  else some ((activeMechs t).map (fun m => (m, colSum t.rows m)))

/-! ### Normal form of the filter pipeline

Each of the three filter stages preserves the column list and filters
the row list by a pointwise predicate; composing them is filtering by
the conjunction.  These lemmas let every algebraic claim about
`filtered_df` reduce to reasoning about `List.filter`. -/

/-- The predicate of the state stage: empty selection keeps everything. -/
def keepJ (J : List String) (r : Row) : Bool :=
  J.isEmpty || cellInStrs (getCell r "state") J

/-- The predicate of the paradigm stage. -/
def keepP (P : List String) (r : Row) : Bool :=
  P.isEmpty || cellInStrs (getCell r "paradigm") P

/-- The predicate of the mechanism loop: every registry mechanism that is
checked and present as a column must test equal to `True`. -/
def keepM (cols M : List String) (r : Row) : Bool :=
  mechanism_cols.all (fun m =>
    !(M.contains m && cols.contains m) || cellEqTrue (getCell r m))

theorem stateFilter_cols (J : List String) (t : Table) :
    (stateFilter J t).cols = t.cols := by
  unfold stateFilter; split <;> rfl

theorem paradigmFilter_cols (P : List String) (t : Table) :
    (paradigmFilter P t).cols = t.cols := by
  unfold paradigmFilter; split <;> rfl

theorem mechFilter_cols (M : List String) (t : Table) :
    (mechFilter M t).cols = t.cols := rfl

theorem stateFilter_rows (J : List String) (t : Table) :
    (stateFilter J t).rows = t.rows.filter (keepJ J) := by
  unfold stateFilter keepJ
  by_cases h : J.isEmpty
  · simp [h]
  · simp [h]

theorem paradigmFilter_rows (P : List String) (t : Table) :
    (paradigmFilter P t).rows = t.rows.filter (keepP P) := by
  unfold paradigmFilter keepP
  by_cases h : P.isEmpty
  · simp [h]
  · simp [h]

theorem mechfold_eq_filter (cols M : List String) :
    ∀ (ms : List String) (rs : List Row),
      ms.foldl (mechStep cols M) rs
        = rs.filter (fun r => ms.all (fun m =>
            !(M.contains m && cols.contains m) || cellEqTrue (getCell r m)))
  | [], rs => by simp
  | m :: ms, rs => by
    rw [List.foldl_cons, mechfold_eq_filter cols M ms]
    unfold mechStep
    by_cases h : (M.contains m && cols.contains m) = true
    · rw [if_pos h, List.filter_filter]
      apply List.filter_congr
      intro r _
      simp only [List.all_cons, h, Bool.not_true, Bool.false_or]
      exact Bool.and_comm _ _
    · rw [if_neg h]
      apply List.filter_congr
      intro r _
      have h' : (M.contains m && cols.contains m) = false :=
        Bool.eq_false_iff.mpr h
      simp only [List.all_cons, h', Bool.not_false, Bool.true_or, Bool.true_and]

theorem mechFilter_rows (M : List String) (t : Table) :
    (mechFilter M t).rows = t.rows.filter (keepM t.cols M) := by
  unfold mechFilter keepM
  exact mechfold_eq_filter t.cols M mechanism_cols t.rows

theorem filtered_df_cols (df : Table) (J P M : List String) :
    (filtered_df df J P M).cols = df.cols := by
  unfold filtered_df
  rw [mechFilter_cols, paradigmFilter_cols, stateFilter_cols]

theorem filtered_df_rows (df : Table) (J P M : List String) :
    (filtered_df df J P M).rows
      = df.rows.filter (fun r => keepJ J r && keepP P r && keepM df.cols M r) := by
  unfold filtered_df
  rw [mechFilter_rows, paradigmFilter_rows, paradigmFilter_cols,
      stateFilter_rows, stateFilter_cols, List.filter_filter, List.filter_filter]
  apply List.filter_congr
  intro r _
  cases keepJ J r <;> cases keepP P r <;> cases keepM df.cols M r <;> rfl

/-! ### Sample data

Concrete rows and tables (the scenario of spec §8) used to witness the
hypothesised theorems below. -/

def rCA : Row :=
  [("state", CellVal.vStr "CA"), ("name", CellVal.vStr "SB-1"),
   ("paradigm", CellVal.vStr "Duty of Care"),
   ("age_verification", CellVal.vBool true)]

def rTX : Row :=
  [("state", CellVal.vStr "TX"), ("name", CellVal.vStr "HB-2"),
   ("paradigm", CellVal.vStr "Consent"),
   ("age_verification", CellVal.vInt 0)]

def rCA2 : Row :=
  [("state", CellVal.vStr "CA"), ("name", CellVal.vStr "AB-3"),
   ("paradigm", CellVal.vStr "Duty of Care"),
   ("age_verification", CellVal.vInt 1)]

def sampleT : Table :=
  ⟨["state", "name", "paradigm", "age_verification"], [rCA, rTX, rCA2]⟩

/-- A two-row table whose two paradigms are tied for the mode. -/
def tieT : Table :=
  ⟨["state", "name", "paradigm", "age_verification"], [rCA, rTX]⟩

/-! ### Claims -/

/-- C1: for every table and every filter selection, every row of
`filtered_df` is a row of the input table: the filter engine only removes
rows, never adds or alters them. -/
theorem C1_filter_subset (df : Table) (J P M : List String) (r : Row)
    (h : r ∈ (filtered_df df J P M).rows) : r ∈ df.rows := by
  rw [filtered_df_rows] at h
  exact (List.mem_filter.mp h).1

theorem C1_filter_subset_witness :
    rCA ∈ (filtered_df sampleT ["CA"] [] ["age_verification"]).rows ∧
      rCA ∈ sampleT.rows :=
  ⟨by decide, C1_filter_subset sampleT ["CA"] [] ["age_verification"] rCA (by decide)⟩

/-- C4: empty selected jurisdictions, empty selected paradigms and empty
required mechanisms return the table unchanged — empty selections mean
"no restriction". -/
theorem C4_empty_selection_identity (df : Table) :
    filtered_df df [] [] [] = df := by
  obtain ⟨cols, rows⟩ := df
  have hc : (filtered_df ⟨cols, rows⟩ [] [] []).cols = cols :=
    filtered_df_cols ⟨cols, rows⟩ [] [] []
  have hr : (filtered_df ⟨cols, rows⟩ [] [] []).rows = rows := by
    rw [filtered_df_rows]
    apply List.filter_eq_self.mpr
    intro r _
    simp [keepJ, keepP, keepM]
  calc filtered_df ⟨cols, rows⟩ [] [] []
      = ⟨(filtered_df ⟨cols, rows⟩ [] [] []).cols,
         (filtered_df ⟨cols, rows⟩ [] [] []).rows⟩ := rfl
    _ = ⟨cols, rows⟩ := by rw [hc, hr]

/-- C8: the label formatter replaces underscores with spaces and
title-cases each word; `age_verification` maps to `Age Verification`,
`targets_all_platforms` to `Targets All Platforms`, and identifiers
outside the registry format through the same rule with no validation. -/
theorem C8_label_formatting :
    format_mechanism_label "age_verification" = "Age Verification" ∧
    format_mechanism_label "targets_all_platforms" = "Targets All Platforms" ∧
    "school_board_oversight" ∉ mechanism_cols ∧
    format_mechanism_label "school_board_oversight" = "School Board Oversight" := by
  decide

/-- C9: filtering and summarising are total, and a zero-row table filters
to zero rows under every selection, summarising to the zero/sentinel
summary rather than raising. -/
theorem C9_zero_row_safe (cols J P M : List String) :
    (filtered_df ⟨cols, []⟩ J P M).rows = [] ∧
      summarize (filtered_df ⟨cols, []⟩ J P M)
        = { bill_count := 0, jurisdiction_count := 0, dominant_paradigm := "N/A" } := by
  have h : (filtered_df ⟨cols, []⟩ J P M).rows = [] := by
    rw [filtered_df_rows]; rfl
  refine ⟨h, ?_⟩
  simp [summarize, top_paradigm_val, stateVals, h]

/-- C3: the three filter stages commute — all six application orders
produce the same row list as the implemented order (state, then
paradigm, then mechanisms). -/
theorem C3_filter_order_commutes (df : Table) (J P M : List String) :
    (mechFilter M (stateFilter J (paradigmFilter P df))).rows
        = (filtered_df df J P M).rows ∧
    (paradigmFilter P (mechFilter M (stateFilter J df))).rows
        = (filtered_df df J P M).rows ∧
    (paradigmFilter P (stateFilter J (mechFilter M df))).rows
        = (filtered_df df J P M).rows ∧
    (stateFilter J (mechFilter M (paradigmFilter P df))).rows
        = (filtered_df df J P M).rows ∧
    (stateFilter J (paradigmFilter P (mechFilter M df))).rows
        = (filtered_df df J P M).rows := by
  refine ⟨?_, ?_, ?_, ?_, ?_⟩ <;>
  · simp only [mechFilter_rows, stateFilter_rows, paradigmFilter_rows,
      mechFilter_cols, stateFilter_cols, paradigmFilter_cols,
      filtered_df_rows, List.filter_filter]
    apply List.filter_congr
    intro r _
    cases keepJ J r <;> cases keepP P r <;> cases keepM df.cols M r <;> rfl

/-- Filtering by a pointwise-stronger predicate yields a shorter list. -/
theorem length_filter_mono {α : Type} (l : List α) (p q : α → Bool)
    (h : ∀ a, p a = true → q a = true) :
    (l.filter p).length ≤ (l.filter q).length := by
  induction l with
  | nil => simp
  | cons a t ih =>
    rw [List.filter_cons, List.filter_cons]
    by_cases hp : p a = true
    · rw [if_pos hp, if_pos (h a hp)]
      exact Nat.succ_le_succ ih
    · rw [if_neg hp]
      by_cases hq : q a = true
      · rw [if_pos hq]
        exact Nat.le_succ_of_le ih
      · rw [if_neg hq]
        exact ih

/-- Growing the set of checked mechanisms strengthens the mechanism
predicate pointwise. -/
theorem keepM_mono (cols M M' : List String) (h : ∀ m ∈ M, m ∈ M') (r : Row)
    (hk : keepM cols M' r = true) : keepM cols M r = true := by
  unfold keepM at hk ⊢
  simp only [List.all_eq_true, Bool.or_eq_true, Bool.not_eq_true',
    Bool.and_eq_false_iff, List.elem_eq_mem, decide_eq_false_iff_not] at hk ⊢
  intro m hm
  rcases hk m hm with (h2 | h2) | h2
  · exact Or.inl (Or.inl (fun hmM => h2 (h m hmM)))
  · exact Or.inl (Or.inr h2)
  · exact Or.inr h2

/-- C5: requiring more mechanisms never increases the result size:
if `M ⊆ M'` then `filtered_df df J P M'` has at most as many rows as
`filtered_df df J P M`. -/
theorem C5_mechanism_monotone (df : Table) (J P M M' : List String)
    (h : ∀ m ∈ M, m ∈ M') :
    (filtered_df df J P M').rows.length ≤ (filtered_df df J P M).rows.length := by
  rw [filtered_df_rows, filtered_df_rows]
  apply length_filter_mono
  intro r hr
  rw [Bool.and_eq_true] at hr ⊢
  exact ⟨hr.1, keepM_mono df.cols M M' h r hr.2⟩

theorem C5_mechanism_monotone_witness :
    (∀ m ∈ (["age_verification"] : List String),
        m ∈ (["age_verification", "parental_consent"] : List String)) ∧
    (filtered_df sampleT ["CA"] [] ["age_verification", "parental_consent"]).rows.length
      ≤ (filtered_df sampleT ["CA"] [] ["age_verification"]).rows.length :=
  ⟨by decide,
   C5_mechanism_monotone sampleT ["CA"] [] ["age_verification"]
     ["age_verification", "parental_consent"] (by decide)⟩

/-- Under the caller contract of §4.2/§3 — every required mechanism is a
registry identifier active as a column — the mechanism predicate is
exactly the conjunction of `== True` tests over `M`. -/
theorem keepM_iff (cols M : List String) (r : Row)
    (hreg : ∀ m ∈ M, m ∈ mechanism_cols) (hcols : ∀ m ∈ M, m ∈ cols) :
    (keepM cols M r = true ↔ ∀ m ∈ M, cellEqTrue (getCell r m) = true) := by
  unfold keepM
  simp only [List.all_eq_true, Bool.or_eq_true, Bool.not_eq_true',
    Bool.and_eq_false_iff, List.elem_eq_mem, decide_eq_false_iff_not]
  constructor
  · intro h m hm
    rcases h m (hreg m hm) with (h2 | h2) | h2
    · exact absurd hm h2
    · exact absurd (hcols m hm) h2
    · exact h2
  · intro h m _
    by_cases hmM : m ∈ M
    · exact Or.inr (h m hmM)
    · exact Or.inl (Or.inl hmM)

/-- C2: with a non-empty required-mechanism set drawn from the active
registry columns, a record survives the mechanism filter iff every
required mechanism's value tests equal to `True`; the equality test
accepts the numeric encodings (`1` counts as true, `0` as false) as well
as the boolean `True`. -/
theorem C2_mechanism_conjunctive (t : Table) (M : List String) (r : Row)
    (hreg : ∀ m ∈ M, m ∈ mechanism_cols) (hcols : ∀ m ∈ M, m ∈ t.cols)
    (_hne : M ≠ []) :
    (r ∈ (mechFilter M t).rows ↔
      r ∈ t.rows ∧ ∀ m ∈ M, cellEqTrue (getCell r m) = true) ∧
    cellEqTrue (CellVal.vBool true) = true ∧
    cellEqTrue (CellVal.vInt 1) = true ∧
    cellEqTrue (CellVal.vInt 0) = false := by
  refine ⟨?_, rfl, rfl, rfl⟩
  rw [mechFilter_rows, List.mem_filter, keepM_iff t.cols M r hreg hcols]

theorem C2_mechanism_conjunctive_witness :
    (∀ m ∈ (["age_verification"] : List String), m ∈ mechanism_cols) ∧
    (∀ m ∈ (["age_verification"] : List String), m ∈ sampleT.cols) ∧
    (["age_verification"] : List String) ≠ [] ∧
    ((rCA2 ∈ (mechFilter ["age_verification"] sampleT).rows ↔
        rCA2 ∈ sampleT.rows ∧
          ∀ m ∈ (["age_verification"] : List String),
            cellEqTrue (getCell rCA2 m) = true) ∧
      cellEqTrue (CellVal.vBool true) = true ∧
      cellEqTrue (CellVal.vInt 1) = true ∧
      cellEqTrue (CellVal.vInt 0) = false) :=
  ⟨by decide, by decide, by decide,
   C2_mechanism_conjunctive sampleT ["age_verification"] rCA2
     (by decide) (by decide) (by decide)⟩

/-- C6: an empty *filtered* table summarises to counts 0 with the
`"N/A"` dominant-paradigm sentinel, while a never-loaded (empty) source
table produces no summary at all (`none`, the "no data available"
warning path) — the two empty states are never conflated. -/
theorem C6_empty_sentinels (df : Table) (J P M : List String)
    (hdf : df.rows ≠ []) (hf : (filtered_df df J P M).rows = []) :
    summarize (filtered_df df J P M)
        = { bill_count := 0, jurisdiction_count := 0, dominant_paradigm := "N/A" } ∧
    dashboardSummary df J P M
        = some { bill_count := 0, jurisdiction_count := 0, dominant_paradigm := "N/A" } ∧
    ∀ (cols J' P' M' : List String),
      dashboardSummary ⟨cols, []⟩ J' P' M' ≠ dashboardSummary df J P M := by
  have hsum : summarize (filtered_df df J P M)
      = { bill_count := 0, jurisdiction_count := 0, dominant_paradigm := "N/A" } := by
    simp [summarize, top_paradigm_val, stateVals, hf]
  refine ⟨hsum, ?_, ?_⟩
  · rw [dashboardSummary, if_neg (by simp [hdf]), hsum]
  · intro cols J' P' M'
    rw [dashboardSummary, if_pos (by simp), dashboardSummary, if_neg (by simp [hdf])]
    exact fun hcontra => Option.noConfusion hcontra

theorem C6_empty_sentinels_witness :
    sampleT.rows ≠ [] ∧ (filtered_df sampleT ["NY"] [] []).rows = [] ∧
      (summarize (filtered_df sampleT ["NY"] [] [])
          = { bill_count := 0, jurisdiction_count := 0, dominant_paradigm := "N/A" } ∧
        dashboardSummary sampleT ["NY"] [] []
          = some { bill_count := 0, jurisdiction_count := 0, dominant_paradigm := "N/A" } ∧
        ∀ (cols J' P' M' : List String),
          dashboardSummary ⟨cols, []⟩ J' P' M' ≠ dashboardSummary sampleT ["NY"] [] []) :=
  ⟨by decide, by decide, C6_empty_sentinels sampleT ["NY"] [] [] (by decide) (by decide)⟩

/-- C7 as stated is false: for an *empty* filtered view the code renders
an informational message and computes no mechanism-frequency mapping at
all (line 156 guards on `not filtered_df.empty`), so no mapping with the
active mechanisms as keys exists. -/
theorem C7_counterexample :
    ¬ ∃ l : List (String × Int),
        mech_counts ⟨["state", "name", "paradigm", "age_verification"], []⟩ = some l ∧
          l.map Prod.fst
            = activeMechs ⟨["state", "name", "paradigm", "age_verification"], []⟩ := by
  rintro ⟨l, hl, -⟩
  simp [mech_counts] at hl

/-- C7 (amended): for every *non-empty* filtered view with at least one
active mechanism column, the key list of the mechanism-frequency mapping
is exactly the active mechanism list of the table — mechanisms with zero
true rows are included (with their column sum, 0), not omitted. -/
theorem C7_mech_frequency_keys (t : Table)
    (hrows : t.rows ≠ []) (hmech : activeMechs t ≠ []) :
    ∃ l : List (String × Int), mech_counts t = some l ∧
      l.map Prod.fst = activeMechs t ∧
      ∀ m ∈ activeMechs t, (m, colSum t.rows m) ∈ l := by
  refine ⟨(activeMechs t).map (fun m => (m, colSum t.rows m)), ?_, ?_, ?_⟩
  · rw [mech_counts, if_neg (by simp [hrows]), if_neg (by simpa using hmech)]
  · rw [List.map_map]
    have hid : (Prod.fst ∘ fun m : String => (m, colSum t.rows m)) = id := rfl
    rw [hid, List.map_id]
  · intro m hm
    exact List.mem_map.mpr ⟨m, hm, rfl⟩

theorem C7_mech_frequency_keys_witness :
    sampleT.rows ≠ [] ∧ activeMechs sampleT ≠ [] ∧
      ∃ l : List (String × Int), mech_counts sampleT = some l ∧
        l.map Prod.fst = activeMechs sampleT ∧
        ∀ m ∈ activeMechs sampleT, (m, colSum sampleT.rows m) ∈ l :=
  ⟨by decide, by decide, C7_mech_frequency_keys sampleT (by decide) (by decide)⟩

/-- Members of `modeSet` attain the maximal multiplicity. -/
theorem modeSet_count (l : List String) (v : String) (hv : v ∈ modeSet l) :
    l.count v = maxCount l := by
  unfold modeSet at hv
  have h := (List.mem_filter.mp hv).2
  simpa using h

/-- A non-empty value list has a non-empty mode set: the maximal
multiplicity is attained by some distinct value. -/
theorem modeSet_ne_nil (l : List String) (h : l ≠ []) : modeSet l ≠ [] := by
  have hd : l.dedup ≠ [] := by
    intro hx
    exact h ((List.dedup_eq_nil l).mp hx)
  cases hm : (l.dedup.map (fun v => l.count v)).max? with
  | none =>
    rw [List.max?_eq_none_iff, List.map_eq_nil_iff] at hm
    exact absurd hm hd
  | some m =>
    have hmem : m ∈ l.dedup.map (fun v => l.count v) :=
      List.max?_mem (fun a b => max_choice a b) hm
    obtain ⟨v, hvd, hvc⟩ := List.mem_map.mp hmem
    intro hnil
    have hvmode : v ∈ modeSet l := by
      unfold modeSet
      apply List.mem_filter.mpr
      refine ⟨hvd, ?_⟩
      unfold maxCount
      rw [hm]
      simpa using hvc
    rw [hnil] at hvmode
    exact List.not_mem_nil v hvmode

/-- The head of `pandasMode` is a mode and is `≤` every mode: pandas
returns the tied modes in ascending order, so `mode()[0]` is the
lexicographically smallest. -/
theorem pandasMode_head_min (l : List String) (h : l ≠ []) :
    ∃ v rest, pandasMode l = v :: rest ∧ v ∈ modeSet l ∧
      ∀ u ∈ modeSet l, v ≤ u := by
  have hperm : List.Perm (pandasMode l) (modeSet l) := List.perm_insertionSort _ _
  have hsorted : List.Sorted (· ≤ ·) (pandasMode l) :=
    List.sorted_insertionSort _ _
  cases hpm : pandasMode l with
  | nil =>
    rw [hpm] at hperm
    exact absurd hperm.symm.eq_nil (modeSet_ne_nil l h)
  | cons v rest =>
    rw [hpm] at hperm hsorted
    refine ⟨v, rest, rfl, hperm.mem_iff.mp (List.mem_cons_self v rest), ?_⟩
    intro u hu
    rcases List.mem_cons.mp (hperm.mem_iff.mpr hu) with h' | h'
    · exact le_of_eq h'.symm
    · exact (List.sorted_cons.mp hsorted).1 u h'

/-- C10: on a non-empty filtered table with at least one non-null
paradigm value, `top_paradigm_val` returns a paradigm of maximal
frequency that is `≤` every paradigm of maximal frequency — with tied
modes, the lexicographically smallest tied value. -/
theorem C10_dominant_tiebreak (df : Table) (J P M : List String)
    (h1 : (filtered_df df J P M).rows ≠ [])
    (h2 : paradigmVals (filtered_df df J P M).rows ≠ []) :
    top_paradigm_val (filtered_df df J P M)
        ∈ modeSet (paradigmVals (filtered_df df J P M).rows) ∧
      ∀ u ∈ modeSet (paradigmVals (filtered_df df J P M).rows),
        top_paradigm_val (filtered_df df J P M) ≤ u := by
  obtain ⟨v, rest, hpm, hvm, hmin⟩ :=
    pandasMode_head_min (paradigmVals (filtered_df df J P M).rows) h2
  have htop : top_paradigm_val (filtered_df df J P M) = v := by
    rw [top_paradigm_val, if_neg (by simp [h1]), hpm]
  rw [htop]
  exact ⟨hvm, hmin⟩

theorem C10_dominant_tiebreak_witness :
    (filtered_df tieT [] [] []).rows ≠ [] ∧
      paradigmVals (filtered_df tieT [] [] []).rows ≠ [] ∧
      (top_paradigm_val (filtered_df tieT [] [] [])
          ∈ modeSet (paradigmVals (filtered_df tieT [] [] []).rows) ∧
        ∀ u ∈ modeSet (paradigmVals (filtered_df tieT [] [] []).rows),
          top_paradigm_val (filtered_df tieT [] [] []) ≤ u) :=
  ⟨by decide, by decide, C10_dominant_tiebreak tieT [] [] [] (by decide) (by decide)⟩
